import Mathlib

/-!
# Verification of the Astreon Earth-visualization front end

Shallow embedding of `src/script.js` (class `EarthVisualization`): the
ambient voice scheduler, the random text spawner, the presentation state
machine (start / menu / dialog flow), the resize handler, and the
DOM-lookup guard structure.  Times are modelled as integers (milliseconds,
`Date.now()`), random draws as rationals in `[0,1)` (`Math.random()`), and
geometric quantities as rationals, with `tan(fov/2)` kept as an abstract
parameter (the code only ever multiplies it by constants).
-/

namespace Astreon

/-! ## Constants from src/script.js -/

/-- `setInterval(..., 25000)` in `startRandomVoiceSystem` (script.js:144-146). -/
def voiceCheckIntervalMs : ℕ := 25000

/-- The 60-second minimum gap in `maybePlayRandomVoice` (script.js:155). -/
def voiceMinGapMs : ℤ := 60000

/-- The 15% chance threshold in `maybePlayRandomVoice` (script.js:155). -/
def voiceChance : ℚ := 15/100

/-- `setInterval(..., 800)` in `startRandomTextSpawning` (script.js:603-607). -/
def textSpawnIntervalMs : ℕ := 800

/-- `Math.random() > 0.4` spawn threshold (script.js:604). -/
def textSpawnThreshold : ℚ := 4/10

/-- `Math.random() > 0.7` fade-variant threshold (script.js:581). -/
def textFadeThreshold : ℚ := 7/10

/-- `setTimeout(..., 4000)` label lifetime (script.js:595-599). -/
def textLifetimeMs : ℕ := 4000

/-- `const distance = 160` in `zoomToPlanet` / `moveEarthTo` (script.js:437,777). -/
def cameraDistance : ℚ := 160

/-! ## Voice system (script.js:140-193)

`this.distortedVoices` is a list of audio elements; we model an element by
a name.  `playRandomVoice` picks `Math.floor(Math.random() * length)`; a
JavaScript out-of-range index yields `undefined`, which fails the
`if (selectedVoice)` guard.  On a (successful) play, `lastVoiceTime` is set
to the current time; otherwise it is left unchanged. -/

/-- `Math.floor(Math.random() * this.distortedVoices.length)` (script.js:170). -/
def voiceIndex (pick : ℚ) (len : ℕ) : ℤ := ⌊pick * (len : ℚ)⌋

/-- `this.distortedVoices[randomIndex]` with JavaScript indexing semantics:
an out-of-range (or negative) index yields no element (script.js:171). -/
def selectVoice (voices : List String) (pick : ℚ) : Option String :=
  let randomIndex := voiceIndex pick voices.length
  if 0 ≤ randomIndex then voices.get? randomIndex.toNat else none

/-- `playRandomVoice` (script.js:161-193): returns the clip played (if any)
and the resulting `lastVoiceTime`, given the current time `now` and the
previous `lastVoiceTime` `last`.  An empty pool returns immediately; a
successful play sets `lastVoiceTime` to `now`. -/
def playRandomVoice (voices : List String) (pick : ℚ) (now last : ℤ) :
    Option String × ℤ :=
  if voices.length = 0 then (none, last)
  else
    match selectVoice voices pick with
    | some v => (some v, now)
    | none => (none, last)

/-- One scheduler tick: the tick's wall-clock time, the `Math.random()`
draw in `maybePlayRandomVoice`, and the draw in `playRandomVoice`. -/
structure Tick where
  time : ℤ
  chance : ℚ
  pick : ℚ
deriving DecidableEq

/-- `maybePlayRandomVoice` (script.js:149-159): calls `playRandomVoice`
only when `timeSinceLastVoice > 60000 && randomChance < 0.15`. -/
def maybePlayRandomVoice (voices : List String) (last : ℤ) (tk : Tick) :
    Option String × ℤ :=
  if tk.time - last > voiceMinGapMs ∧ tk.chance < voiceChance then
    playRandomVoice voices tk.pick tk.time last
  else (none, last)

/-- The fire times produced by a run of scheduler ticks, threading
`lastVoiceTime` through `maybePlayRandomVoice`. -/
def schedTrace (voices : List String) (last : ℤ) : List Tick → List ℤ
  | [] => []
  | tk :: ts =>
    let r := maybePlayRandomVoice voices last tk
    if r.1.isSome then tk.time :: schedTrace voices r.2 ts
    else schedTrace voices r.2 ts

/-- A voice-system event: a scheduler tick, or a manual "v" keypress
(script.js:499-504), which calls `playRandomVoice` directly. -/
inductive VoiceEvent where
  | tick (tk : Tick)
  | manual (time : ℤ) (pick : ℚ)
deriving DecidableEq

/-- Process one voice event, returning the clip played and the new
`lastVoiceTime`. -/
def voiceStep (voices : List String) (last : ℤ) : VoiceEvent → Option String × ℤ
  | .tick tk => maybePlayRandomVoice voices last tk
  | .manual time pick => playRandomVoice voices pick time last

/-- The wall-clock time of a voice event. -/
def VoiceEvent.time : VoiceEvent → ℤ
  | .tick tk => tk.time
  | .manual t _ => t

/-- Fire times of a mixed run of scheduler ticks and manual triggers. -/
def voiceTrace (voices : List String) (last : ℤ) : List VoiceEvent → List ℤ
  | [] => []
  | e :: es =>
    let r := voiceStep voices last e
    if r.1.isSome then e.time :: voiceTrace voices r.2 es
    else voiceTrace voices r.2 es

/-! ## Presentation state machine (script.js:425-839)

UI panels carry the CSS classes `hidden` / `visible` that the code toggles,
plus (for the game menu and social icons) an inline `display` style.  The
camera-target tween is recorded by its completion value: all claims below
quantify over states "at tween completion".  The geometric factors
`tan(fov/2)` and the viewport aspect ratio enter every target only as
multiplicative parameters, so the transition functions take them as
rational arguments `t` (for `Math.tan(fov/2)`) and `a` (for
`window.innerWidth / window.innerHeight`). -/

/-- The four dialog ids of `setupMenuInteractions` (script.js:616-619,643). -/
inductive DialogId where
  | about | problem | contact | sponsors
deriving DecidableEq

/-- The four animation directions of `moveEarthTo` (script.js:781-801). -/
inductive Direction where
  | right | top | bottom | bottomRight
deriving DecidableEq

/-- `menuOptions` table (script.js:615-620): data-option key to dialog id
and animation direction. -/
def menuOptions : ℕ → Option (DialogId × Direction)
  | 2 => some (.about, .right)
  | 3 => some (.problem, .top)
  | 4 => some (.contact, .bottom)
  | 5 => some (.sponsors, .bottomRight)
  | _ => none

/-- The CSS-class state of a panel: the `hidden` and `visible` classes. -/
structure Panel where
  hiddenClass : Bool
  visibleClass : Bool
deriving DecidableEq

/-- The UI / camera state touched by the presentation flow. -/
structure UIState where
  hasStarted : Bool
  startTextHidden : Bool
  titleHidden : Bool
  socialDisplayNone : Bool
  gameMenu : Panel
  gameMenuDisplayNone : Bool
  aboutDialog : Panel
  problemDialog : Panel
  contactDialog : Panel
  sponsorsDialog : Panel
  currentDialog : Option DialogId
  targetX : ℚ
  targetY : ℚ
  zoomTweens : ℕ
deriving DecidableEq

/-- The panel of a dialog id. -/
def UIState.dialog (s : UIState) : DialogId → Panel
  | .about => s.aboutDialog
  | .problem => s.problemDialog
  | .contact => s.contactDialog
  | .sponsors => s.sponsorsDialog

/-- Replace the panel of a dialog id. -/
def UIState.setDialog (s : UIState) : DialogId → Panel → UIState
  | .about, p => { s with aboutDialog := p }
  | .problem, p => { s with problemDialog := p }
  | .contact, p => { s with contactDialog := p }
  | .sponsors, p => { s with sponsorsDialog := p }

/-- The page-load state: nothing started, menu and all four dialogs carry
the `hidden` class, camera target at the origin. -/
def initialState : UIState where
  hasStarted := false
  startTextHidden := false
  titleHidden := false
  socialDisplayNone := false
  gameMenu := ⟨true, false⟩
  gameMenuDisplayNone := false
  aboutDialog := ⟨true, false⟩
  problemDialog := ⟨true, false⟩
  contactDialog := ⟨true, false⟩
  sponsorsDialog := ⟨true, false⟩
  currentDialog := none
  targetX := 0
  targetY := 0
  zoomTweens := 0

/-- `moveEarthTo` target (script.js:774-805): the tween-completion value of
`controls.target` (x, y), with `t = Math.tan(fov/2)`, `a` the aspect ratio
and `distance = 160`. -/
def moveEarthTarget (t a : ℚ) : Direction → ℚ × ℚ
  | .right => (-(t * cameraDistance * a * (8/10)), 0)
  | .top => (t * cameraDistance * a * (6/10), t * cameraDistance * (8/10))
  | .bottom => (t * cameraDistance * a * (6/10), -(t * cameraDistance * (8/10)))
  | .bottomRight => (-(t * cameraDistance * a * (6/10)), -(t * cameraDistance * (6/10)))

/-- `showGameMenu` (script.js:548-561): remove `hidden`, add `visible`. -/
def showGameMenu (s : UIState) : UIState :=
  { s with gameMenu := ⟨false, true⟩ }

/-- `zoomToPlanet` (script.js:433-466) at tween completion: the controls
target reaches `rightLookOffset = tan(fov/2) * 160 * aspect`, one zoom-in
tween has been started, and `onComplete` shows the game menu. -/
def zoomToPlanet (t a : ℚ) (s : UIState) : UIState :=
  showGameMenu
    { s with targetX := t * cameraDistance * a, targetY := 0,
             zoomTweens := s.zoomTweens + 1 }

/-- `startGame` (script.js:523-546): sets `hasStarted` synchronously (its
second statement, before any timer callback can run), hides the start
text, the title container and the social icons, then triggers
`zoomToPlanet`. -/
def startGame (t a : ℚ) (s : UIState) : UIState :=
  zoomToPlanet t a
    { s with hasStarted := true, startTextHidden := true,
             titleHidden := true, socialDisplayNone := true }

/-- The two start triggers of `setupStartExperience` (script.js:506-521):
the Enter key and a click on the start text. -/
inductive StartTrigger where
  | enterKey | startClick
deriving DecidableEq

/-- Processing one start trigger: both handlers guard on
`!this.hasStarted` before calling `startGame` (script.js:508,516). -/
def startStep (t a : ℚ) (s : UIState) (_e : StartTrigger) : UIState :=
  if s.hasStarted then s else startGame t a s

/-- Processing a sequence of start triggers in order. -/
def runStart (t a : ℚ) (s : UIState) (es : List StartTrigger) : UIState :=
  es.foldl (startStep t a) s

/-- `showDialog` (script.js:704-731): hide the game menu by
`style.display = 'none'`, record `currentDialog`, tween the camera target
to the direction's pose, and (after the 500ms delay) remove the dialog's
`hidden` class and add `visible`. -/
def showDialog (t a : ℚ) (d : DialogId) (dir : Direction) (s : UIState) : UIState :=
  UIState.setDialog
    { s with gameMenuDisplayNone := true, currentDialog := some d,
             targetX := (moveEarthTarget t a dir).1,
             targetY := (moveEarthTarget t a dir).2 }
    d ⟨false, true⟩

/-- `hideDialog` (script.js:733-752): remove the dialog's `visible` class,
(after 500ms) add `hidden`, restore the game menu's `display`, and tween
the camera target back to the menu pose via `moveEarthToLeft`
(script.js:820-839).  `currentDialog` is not cleared by the code. -/
def hideDialog (t a : ℚ) (d : DialogId) (s : UIState) : UIState :=
  UIState.setDialog
    { s with gameMenuDisplayNone := false,
             targetX := t * cameraDistance * a, targetY := 0 }
    d ⟨true, false⟩

/-- A click on the menu item with data-option `o` (script.js:622-630): the
handler exists only for the keys of `menuOptions` and calls `showDialog`
unconditionally. -/
def menuClickHandler (t a : ℚ) (o : ℕ) (s : UIState) : UIState :=
  match menuOptions o with
  | some (d, dir) => showDialog t a d dir s
  | none => s

/-- The three close mechanisms (script.js:632-654, 754-765): a
`.dialog-close` button carrying its dialog id in `data-dialog`, a click on
a dialog overlay (with a flag for whether the click target is exactly the
overlay), and the "e" key. -/
inductive CloseEvent where
  | closeButton (d : DialogId)
  | backdropClick (d : DialogId) (targetIsOverlay : Bool)
  | keyE
deriving DecidableEq

/-- Processing one close event: the close button calls `hideDialog` on its
own dialog; the overlay click calls it only when `e.target` is the overlay
itself; the "e" handler checks `this.currentDialog` (script.js:754-763). -/
def closeStep (t a : ℚ) (s : UIState) : CloseEvent → UIState
  | .closeButton d => hideDialog t a d s
  | .backdropClick d isOverlay => if isOverlay then hideDialog t a d s else s
  | .keyE =>
    match s.currentDialog with
    | some d => hideDialog t a d s
    | none => s

/-- The dialog ids whose panel currently carries the `visible` class. -/
def UIState.visibleDialogs (s : UIState) : List DialogId :=
  [DialogId.about, DialogId.problem, DialogId.contact, DialogId.sponsors].filter
    fun d => (s.dialog d).visibleClass

/-! ## Window resize (script.js:841-845) -/

/-- The camera fields touched by `onWindowResize`. -/
structure Camera where
  fovDeg : ℚ
  aspect : ℚ
  projectionUpdates : ℕ
deriving DecidableEq

/-- The renderer fields touched by `onWindowResize`. -/
structure Renderer where
  width : ℚ
  height : ℚ
deriving DecidableEq

/-- `onWindowResize` (script.js:841-845): set `camera.aspect` to
`window.innerWidth / window.innerHeight`, call `updateProjectionMatrix`,
and set the renderer size to the viewport size. -/
def onWindowResize (w h : ℚ) (cam : Camera) (_ren : Renderer) : Camera × Renderer :=
  ({ cam with aspect := w / h, projectionUpdates := cam.projectionUpdates + 1 },
   { width := w, height := h })

/-! ## Random text spawner (script.js:563-611) -/

/-- The `techWords` vocabulary (script.js:567-574). -/
def techWords : List String :=
  ["INITIALIZE", "PROTOCOL", "MATRIX", "VECTOR", "QUANTUM",
   "NEURAL", "SYSTEM", "BINARY", "CODE", "DATA",
   "CYBER", "DIGITAL", "STREAM", "FLUX", "NEXUS",
   "ORBIT", "PLASMA", "LASER", "SIGNAL", "CORE",
   "ALPHA", "BETA", "GAMMA", "DELTA", "OMEGA",
   "ERROR", "LOADING", "PROCESS", "EXECUTE", "RUN"]

/-- A spawned transient label: its text, fade-variant flag, `left`/`top`
pixel position and removal delay. -/
structure SpawnedLabel where
  word : String
  fade : Bool
  left : ℚ
  top : ℚ
  lifetimeMs : ℕ
deriving DecidableEq

/-- One tick of the 800ms spawn interval (script.js:576-607): spawn only
when `Math.random() > 0.4`; the label takes a word at index
`Math.floor(Math.random() * techWords.length)`, the `fade` class when
`Math.random() > 0.7`, position `left = Math.random() * 300`,
`top = Math.random() * 500 + 200`, and is removed after 4000ms.  The four
independent `Math.random()` draws are the arguments. -/
def spawnTextTick (rSpawn rFade rWord rLeft rTop : ℚ) : Option SpawnedLabel :=
  if rSpawn > textSpawnThreshold then
    some { word := techWords.getD (⌊rWord * (techWords.length : ℚ)⌋).toNat ""
         , fade := decide (rFade > textFadeThreshold)
         , left := rLeft * 300
         , top := rTop * 500 + 200
         , lifetimeMs := textLifetimeMs }
  else none

/-! ## DOM-lookup guard structure (claim about error handling)

Each operation below is modelled as a function of which DOM elements are
present, returning `Except`: `.ok effs` when the operation completes
(with the list of DOM effects it performed), `.error` when it throws.
Lookups guarded by an `if (element)` presence check skip their effect when
the element is absent; `createRenderer` (script.js:223) dereferences
`document.getElementById('canvas-container')` with no check. -/

/-- Presence of the DOM elements the modelled operations look up. -/
structure Dom where
  loadingProgress : Bool
  loading : Bool
  canvasContainer : Bool
  startText : Bool
  titleContainer : Bool
  socialMedia : Bool
  gameMenu : Bool
  randomTextContainer : Bool
deriving DecidableEq

/-- `loadingManager.onProgress` handler (script.js:60-66): the
`.loading-progress` lookup is guarded. -/
def onProgressRun (dom : Dom) : Except String (List String) :=
  if dom.loadingProgress then .ok ["loading-progress width"] else .ok []

/-- `loadingManager.onLoad` handler (script.js:68-75): the `loading`
lookup is guarded. -/
def onLoadRun (dom : Dom) : Except String (List String) :=
  if dom.loading then .ok ["loading hidden"] else .ok []

/-- `createRenderer` (script.js:210-224):
`document.getElementById('canvas-container').appendChild(...)` has no
presence check, so a missing `canvas-container` throws a TypeError. -/
def createRendererRun (dom : Dom) : Except String (List String) :=
  if dom.canvasContainer then .ok ["canvas-container appendChild"]
  else .error "TypeError: cannot read appendChild of null"

/-- `showGameMenu` (script.js:548-561): the `gameMenu` lookup is guarded. -/
def showGameMenuRun (dom : Dom) : Except String (List String) :=
  if dom.gameMenu then .ok ["gameMenu visible"] else .ok []

/-- The DOM effects of `startGame` (script.js:523-546): all three lookups
(`startText`, `titleContainer`, `socialMedia`) are guarded. -/
def startGameRun (dom : Dom) : Except String (List String) :=
  .ok ((if dom.startText then ["startText hidden"] else []) ++
       (if dom.titleContainer then ["titleContainer hidden"] else []) ++
       (if dom.socialMedia then ["socialMedia display none"] else []))

/-- `startRandomTextSpawning` (script.js:563-565): returns early when
`randomTextContainer` is absent. -/
def startRandomTextSpawningRun (dom : Dom) : Except String (List String) :=
  if dom.randomTextContainer then .ok ["spawn interval started"] else .ok []

/-- Whether an operation completed without throwing. -/
def domOk (r : Except String (List String)) : Bool :=
  match r with
  | .ok _ => true
  | .error _ => false

/-! ## Helper lemmas: voice system -/

lemma playRandomVoice_snd_of_isSome (voices : List String) (pick : ℚ) (now last : ℤ)
    (h : (playRandomVoice voices pick now last).1.isSome) :
    (playRandomVoice voices pick now last).2 = now := by
  by_cases hlen : voices.length = 0
  · simp [playRandomVoice, hlen] at h
  · cases hv : selectVoice voices pick
    · simp [playRandomVoice, hlen, hv] at h
    · simp [playRandomVoice, hlen, hv]

lemma playRandomVoice_snd_of_none (voices : List String) (pick : ℚ) (now last : ℤ)
    (h : (playRandomVoice voices pick now last).1 = none) :
    (playRandomVoice voices pick now last).2 = last := by
  by_cases hlen : voices.length = 0
  · simp [playRandomVoice, hlen]
  · cases hv : selectVoice voices pick
    · simp [playRandomVoice, hlen, hv]
    · simp [playRandomVoice, hlen, hv] at h

lemma maybePlay_of_isSome (voices : List String) (last : ℤ) (tk : Tick)
    (h : (maybePlayRandomVoice voices last tk).1.isSome) :
    (voiceMinGapMs < tk.time - last ∧ tk.chance < voiceChance) ∧
      (maybePlayRandomVoice voices last tk).2 = tk.time := by
  by_cases hc : tk.time - last > voiceMinGapMs ∧ tk.chance < voiceChance
  · unfold maybePlayRandomVoice at h ⊢
    rw [if_pos hc] at h ⊢
    exact ⟨hc, playRandomVoice_snd_of_isSome _ _ _ _ h⟩
  · unfold maybePlayRandomVoice at h
    rw [if_neg hc] at h
    simp at h

lemma maybePlay_snd_of_none (voices : List String) (last : ℤ) (tk : Tick)
    (h : (maybePlayRandomVoice voices last tk).1 = none) :
    (maybePlayRandomVoice voices last tk).2 = last := by
  by_cases hc : tk.time - last > voiceMinGapMs ∧ tk.chance < voiceChance
  · unfold maybePlayRandomVoice at h ⊢
    rw [if_pos hc] at h ⊢
    exact playRandomVoice_snd_of_none _ _ _ _ h
  · unfold maybePlayRandomVoice
    rw [if_neg hc]

lemma voiceMinGapMs_pos : (0 : ℤ) < voiceMinGapMs := by decide

lemma schedTrace_all_gt (voices : List String) :
    ∀ (ts : List Tick) (last : ℤ), ∀ u ∈ schedTrace voices last ts,
      voiceMinGapMs < u - last := by
  intro ts
  induction ts with
  | nil => intro last u hu; simp [schedTrace] at hu
  | cons tk ts ih =>
    intro last u hu
    simp only [schedTrace] at hu
    by_cases hfire : (maybePlayRandomVoice voices last tk).1.isSome
    · obtain ⟨⟨hgap, _⟩, hsnd⟩ := maybePlay_of_isSome voices last tk hfire
      rw [if_pos hfire, hsnd] at hu
      rcases List.mem_cons.mp hu with h | h
      · omega
      · have hpos := voiceMinGapMs_pos
        have := ih tk.time u h
        omega
    · rw [if_neg hfire,
        maybePlay_snd_of_none voices last tk (Option.not_isSome_iff_eq_none.mp hfire)] at hu
      exact ih last u hu

lemma schedTrace_pairwise (voices : List String) :
    ∀ (ts : List Tick) (last : ℤ),
      (schedTrace voices last ts).Pairwise fun x y => voiceMinGapMs < y - x := by
  intro ts
  induction ts with
  | nil => intro last; simp [schedTrace]
  | cons tk ts ih =>
    intro last
    simp only [schedTrace]
    by_cases hfire : (maybePlayRandomVoice voices last tk).1.isSome
    · obtain ⟨⟨hgap, _⟩, hsnd⟩ := maybePlay_of_isSome voices last tk hfire
      rw [if_pos hfire, hsnd]
      exact List.pairwise_cons.mpr ⟨fun u hu => schedTrace_all_gt voices ts tk.time u hu, ih tk.time⟩
    · rw [if_neg hfire,
        maybePlay_snd_of_none voices last tk (Option.not_isSome_iff_eq_none.mp hfire)]
      exact ih last

lemma voiceIndex_bounds (voices : List String) (pick : ℚ)
    (hne : voices ≠ []) (h0 : 0 ≤ pick) (h1 : pick < 1) :
    0 ≤ voiceIndex pick voices.length ∧
      (voiceIndex pick voices.length).toNat < voices.length := by
  have hlen : 0 < voices.length := List.length_pos.mpr hne
  have hlenQ : (0 : ℚ) < (voices.length : ℚ) := by exact_mod_cast hlen
  have hnn : (0 : ℤ) ≤ voiceIndex pick voices.length :=
    Int.floor_nonneg.mpr (mul_nonneg h0 hlenQ.le)
  have hlt : voiceIndex pick voices.length < (voices.length : ℤ) := by
    apply Int.floor_lt.mpr
    push_cast
    exact mul_lt_of_lt_one_left hlenQ h1
  exact ⟨hnn, by omega⟩

lemma selectVoice_isSome (voices : List String) (pick : ℚ)
    (hne : voices ≠ []) (h0 : 0 ≤ pick) (h1 : pick < 1) :
    ∃ v, selectVoice voices pick = some v := by
  obtain ⟨hnn, hlt⟩ := voiceIndex_bounds voices pick hne h0 h1
  refine ⟨voices.get ⟨(voiceIndex pick voices.length).toNat, hlt⟩, ?_⟩
  unfold selectVoice
  rw [if_pos hnn]
  exact List.get?_eq_get hlt

lemma playRandomVoice_fires (voices : List String) (pick : ℚ) (now last : ℤ)
    (hne : voices ≠ []) (h0 : 0 ≤ pick) (h1 : pick < 1) :
    ∃ v, selectVoice voices pick = some v ∧
      playRandomVoice voices pick now last = (some v, now) := by
  obtain ⟨v, hv⟩ := selectVoice_isSome voices pick hne h0 h1
  refine ⟨v, hv, ?_⟩
  unfold playRandomVoice
  rw [if_neg (fun h => hne (List.length_eq_zero.mp h)), hv]

lemma selectVoice_concrete :
    selectVoice ["distortedVoice1", "distortedVoice2"] 0 = some "distortedVoice1" := by
  unfold selectVoice voiceIndex
  norm_num

lemma playRandomVoice_concrete (now last : ℤ) :
    playRandomVoice ["distortedVoice1", "distortedVoice2"] 0 now last =
      (some "distortedVoice1", now) := by
  unfold playRandomVoice
  rw [if_neg (by decide), selectVoice_concrete]

lemma maybePlay_fire_concrete :
    maybePlayRandomVoice ["distortedVoice1", "distortedVoice2"] 0 ⟨70000, 1/10, 0⟩ =
      (some "distortedVoice1", 70000) := by
  unfold maybePlayRandomVoice
  rw [if_pos (by constructor <;> norm_num [voiceMinGapMs, voiceChance])]
  exact playRandomVoice_concrete 70000 0

lemma voiceTrace_concrete :
    voiceTrace ["distortedVoice1", "distortedVoice2"] 0
      [.manual 1000 0, .manual 2000 0] = [1000, 2000] := by
  simp [voiceTrace, voiceStep, playRandomVoice_concrete, VoiceEvent.time]

/-! ## Claim theorems: voice system -/

/-- C3: a scheduler tick fires a voice clip only if the random draw is
below the 0.15 threshold and at least 60000 ms have elapsed since the last
firing; and along any run of scheduler ticks the fire times are pairwise
more than 60000 ms apart, so no two scheduler-initiated firings occur
within the cooldown window. -/
theorem scheduler_cooldown (voices : List String) (last lastT : ℤ)
    (ts : List Tick) (tk : Tick)
    (hfire : (maybePlayRandomVoice voices lastT tk).1.isSome) :
    (tk.chance < voiceChance ∧ voiceMinGapMs ≤ tk.time - lastT) ∧
      (schedTrace voices last ts).Pairwise fun x y => voiceMinGapMs < y - x := by
  obtain ⟨⟨hgap, hchance⟩, _⟩ := maybePlay_of_isSome voices lastT tk hfire
  exact ⟨⟨hchance, hgap.le⟩, schedTrace_pairwise voices ts last⟩

/-- Witness for C3: a concrete firing tick and a concrete three-tick run. -/
theorem scheduler_cooldown_witness :
    (((⟨70000, 1/10, 0⟩ : Tick).chance < voiceChance ∧
        voiceMinGapMs ≤ (⟨70000, 1/10, 0⟩ : Tick).time - 0) ∧
      (schedTrace ["distortedVoice1", "distortedVoice2"] 0
          [⟨70000, 1/10, 0⟩, ⟨95000, 1/10, 0⟩, ⟨140000, 1/10, 0⟩]).Pairwise
        fun x y => voiceMinGapMs < y - x) :=
  scheduler_cooldown ["distortedVoice1", "distortedVoice2"] 0 0
    [⟨70000, 1/10, 0⟩, ⟨95000, 1/10, 0⟩, ⟨140000, 1/10, 0⟩]
    ⟨70000, 1/10, 0⟩ (by rw [maybePlay_fire_concrete]; rfl)

/-- C9: the "v" key calls `playRandomVoice` directly, which (with a
non-empty pool and an in-range draw) always fires — no probability or
cooldown check appears — and updates `lastVoiceTime` to the fire time; a
scheduler tick within 60000 ms of that fire therefore cannot fire; and a
mixed event run containing manual triggers can produce two fires less
than 60000 ms apart. -/
theorem manual_voice_bypasses_cooldown (voices : List String)
    (last time : ℤ) (pick : ℚ)
    (hne : voices ≠ []) (h0 : 0 ≤ pick) (h1 : pick < 1) :
    ((playRandomVoice voices pick time last).1.isSome ∧
        (playRandomVoice voices pick time last).2 = time) ∧
      (∀ tk : Tick, tk.time - time ≤ voiceMinGapMs →
        (maybePlayRandomVoice voices time tk).1 = none) ∧
      (voiceTrace ["distortedVoice1", "distortedVoice2"] 0
          [.manual 1000 0, .manual 2000 0] = [1000, 2000] ∧
        (2000 : ℤ) - 1000 < voiceMinGapMs) := by
  obtain ⟨v, _, hplay⟩ := playRandomVoice_fires voices pick time last hne h0 h1
  refine ⟨⟨by rw [hplay]; rfl, by rw [hplay]⟩, ?_, voiceTrace_concrete, by decide⟩
  intro tk hgap
  unfold maybePlayRandomVoice
  rw [if_neg]
  rintro ⟨hgt, -⟩
  omega

/-- Witness for C9 at a concrete pool, time and draw. -/
theorem manual_voice_bypasses_cooldown_witness :
    ((playRandomVoice ["distortedVoice1", "distortedVoice2"] (1/2) 30000 0).1.isSome ∧
        (playRandomVoice ["distortedVoice1", "distortedVoice2"] (1/2) 30000 0).2 = 30000) ∧
      (∀ tk : Tick, tk.time - 30000 ≤ voiceMinGapMs →
        (maybePlayRandomVoice ["distortedVoice1", "distortedVoice2"] 30000 tk).1 = none) ∧
      (voiceTrace ["distortedVoice1", "distortedVoice2"] 0
          [.manual 1000 0, .manual 2000 0] = [1000, 2000] ∧
        (2000 : ℤ) - 1000 < voiceMinGapMs) :=
  manual_voice_bypasses_cooldown ["distortedVoice1", "distortedVoice2"] 0 30000 (1/2)
    (by simp) (by norm_num) (by norm_num)

/-- C10: voice selection is total and in-bounds: an empty pool returns
with no play and no timestamp update; a non-empty pool with a draw in
`[0,1)` selects a valid index, the element lookup succeeds, and the play
happens and stamps the current time. -/
theorem playRandomVoice_total (voices : List String) (pick : ℚ) (now last : ℤ)
    (h0 : 0 ≤ pick) (h1 : pick < 1) :
    playRandomVoice [] pick now last = (none, last) ∧
      (voices ≠ [] →
        (voiceIndex pick voices.length).toNat < voices.length ∧
          ∃ v, selectVoice voices pick = some v ∧
            playRandomVoice voices pick now last = (some v, now)) := by
  refine ⟨by simp [playRandomVoice], fun hne => ?_⟩
  exact ⟨(voiceIndex_bounds voices pick hne h0 h1).2,
    playRandomVoice_fires voices pick now last hne h0 h1⟩

/-- Witness for C10 at a concrete pool and draw. -/
theorem playRandomVoice_total_witness :
    playRandomVoice [] (3/4) 7 3 = (none, 3) ∧
      (["distortedVoice1", "distortedVoice2"] ≠ [] →
        (voiceIndex (3/4) (["distortedVoice1", "distortedVoice2"] : List String).length).toNat <
            (["distortedVoice1", "distortedVoice2"] : List String).length ∧
          ∃ v, selectVoice ["distortedVoice1", "distortedVoice2"] (3/4) = some v ∧
            playRandomVoice ["distortedVoice1", "distortedVoice2"] (3/4) 7 3 = (some v, 7)) :=
  playRandomVoice_total ["distortedVoice1", "distortedVoice2"] (3/4) 7 3
    (by norm_num) (by norm_num)

/-! ## Helper lemmas: presentation state machine -/

lemma startStep_of_started (t a : ℚ) (s : UIState) (e : StartTrigger)
    (h : s.hasStarted = true) : startStep t a s e = s := by
  simp [startStep, h]

lemma runStart_of_started (t a : ℚ) (s : UIState) (es : List StartTrigger)
    (h : s.hasStarted = true) : runStart t a s es = s := by
  induction es with
  | nil => rfl
  | cons e es ih =>
    show List.foldl (startStep t a) (startStep t a s e) es = s
    rw [startStep_of_started t a s e h]
    exact ih

lemma showDialog_dialog_self (t a : ℚ) (d : DialogId) (dir : Direction) (s : UIState) :
    (showDialog t a d dir s).dialog d = ⟨false, true⟩ := by
  cases d <;> rfl

lemma showDialog_dialog_ne (t a : ℚ) (d d' : DialogId) (dir : Direction) (s : UIState)
    (h : d' ≠ d) : (showDialog t a d dir s).dialog d' = s.dialog d' := by
  cases d <;> cases d' <;> first | rfl | exact absurd rfl h

lemma showDialog_menuDisplayNone (t a : ℚ) (d : DialogId) (dir : Direction) (s : UIState) :
    (showDialog t a d dir s).gameMenuDisplayNone = true := by
  cases d <;> rfl

lemma showDialog_currentDialog (t a : ℚ) (d : DialogId) (dir : Direction) (s : UIState) :
    (showDialog t a d dir s).currentDialog = some d := by
  cases d <;> rfl

lemma showDialog_targetX (t a : ℚ) (d : DialogId) (dir : Direction) (s : UIState) :
    (showDialog t a d dir s).targetX = (moveEarthTarget t a dir).1 := by
  cases d <;> rfl

lemma showDialog_targetY (t a : ℚ) (d : DialogId) (dir : Direction) (s : UIState) :
    (showDialog t a d dir s).targetY = (moveEarthTarget t a dir).2 := by
  cases d <;> rfl

lemma hideDialog_dialog_self (t a : ℚ) (d : DialogId) (s : UIState) :
    (hideDialog t a d s).dialog d = ⟨true, false⟩ := by
  cases d <;> rfl

lemma hideDialog_menuDisplay (t a : ℚ) (d : DialogId) (s : UIState) :
    (hideDialog t a d s).gameMenuDisplayNone = false := by
  cases d <;> rfl

lemma hideDialog_targetX (t a : ℚ) (d : DialogId) (s : UIState) :
    (hideDialog t a d s).targetX = t * cameraDistance * a := by
  cases d <;> rfl

lemma hideDialog_targetY (t a : ℚ) (d : DialogId) (s : UIState) :
    (hideDialog t a d s).targetY = 0 := by
  cases d <;> rfl

lemma menuClickHandler_eq (t a : ℚ) (o : ℕ) (d : DialogId) (dir : Direction)
    (s : UIState) (hopt : menuOptions o = some (d, dir)) :
    menuClickHandler t a o s = showDialog t a d dir s := by
  unfold menuClickHandler
  rw [hopt]

/-! ## Claim theorems: presentation state machine -/

/-- C1: the start action is idempotent: for every sequence of start
triggers, the run equals the effect of the first trigger alone (all later
triggers are no-ops, since `hasStarted` is set synchronously inside
`startGame`); the run leaves the Intro state (`hasStarted`), hides the
intro UI (start text, title, social icons), and starts exactly one
zoom-in tween. -/
theorem start_trigger_idempotent (t a : ℚ) (e : StartTrigger) (es : List StartTrigger) :
    runStart t a initialState (e :: es) = startGame t a initialState ∧
      (runStart t a initialState (e :: es)).zoomTweens = 1 ∧
      (runStart t a initialState (e :: es)).hasStarted = true ∧
      (runStart t a initialState (e :: es)).startTextHidden = true ∧
      (runStart t a initialState (e :: es)).titleHidden = true ∧
      (runStart t a initialState (e :: es)).socialDisplayNone = true := by
  have h2 : runStart t a initialState (e :: es) = startGame t a initialState := by
    show List.foldl (startStep t a) (startStep t a initialState e) es = _
    have h1 : startStep t a initialState e = startGame t a initialState := rfl
    rw [h1]
    exact runStart_of_started t a _ es rfl
  exact ⟨h2, by rw [h2]; rfl, by rw [h2]; rfl, by rw [h2]; rfl, by rw [h2]; rfl,
    by rw [h2]; rfl⟩

/-- C2 counterexample: menu-click input arriving while a dialog is open is
not ignored: after opening the About dialog (option 2), a click on option
3 runs `showDialog` again, leaving both the About and the Problem dialogs
visible at once — the implementation has no guard. -/
theorem menu_click_during_dialog_not_ignored :
    ((menuClickHandler 1 1 2 (startGame 1 1 initialState)).dialog .about).visibleClass = true ∧
      (menuClickHandler 1 1 2 (startGame 1 1 initialState)).currentDialog = some .about ∧
      ((menuClickHandler 1 1 3 (menuClickHandler 1 1 2 (startGame 1 1 initialState))).dialog
          .about).visibleClass = true ∧
      ((menuClickHandler 1 1 3 (menuClickHandler 1 1 2 (startGame 1 1 initialState))).dialog
          .problem).visibleClass = true ∧
      menuClickHandler 1 1 3 (menuClickHandler 1 1 2 (startGame 1 1 initialState)) ≠
        menuClickHandler 1 1 2 (startGame 1 1 initialState) := by
  refine ⟨rfl, rfl, rfl, rfl, fun h => ?_⟩
  have h2 : (true : Bool) = false :=
    congrArg (fun s => (UIState.dialog s DialogId.problem).visibleClass) h
  exact Bool.noConfusion h2

/-- C2 (amended): a menu selection while in the Menu state (no dialog
visible) makes exactly one dialog visible and hides the menu panel; but
the implementation does not guard against menu-click input while a dialog
is open — such input is prevented only by the hidden menu panel, and a
menu-click handler run while another dialog is visible opens the selected
dialog while the other stays visible. -/
theorem menu_selection_exactly_one_dialog (t a : ℚ) (s : UIState) (o : ℕ)
    (d : DialogId) (dir : Direction)
    (hopt : menuOptions o = some (d, dir))
    (hall : ∀ d', (s.dialog d').visibleClass = false) :
    ((menuClickHandler t a o s).visibleDialogs = [d] ∧
        (menuClickHandler t a o s).gameMenuDisplayNone = true) ∧
      ∀ (s' : UIState) (e : DialogId), (s'.dialog e).visibleClass = true → e ≠ d →
        ((menuClickHandler t a o s').dialog e).visibleClass = true ∧
          ((menuClickHandler t a o s').dialog d).visibleClass = true := by
  have ha : s.aboutDialog.visibleClass = false := hall .about
  have hp : s.problemDialog.visibleClass = false := hall .problem
  have hc : s.contactDialog.visibleClass = false := hall .contact
  have hs : s.sponsorsDialog.visibleClass = false := hall .sponsors
  refine ⟨⟨?_, ?_⟩, ?_⟩
  · rw [menuClickHandler_eq t a o d dir s hopt]
    cases d <;>
      simp [UIState.visibleDialogs, showDialog, UIState.setDialog, UIState.dialog,
        List.filter, ha, hp, hc, hs]
  · rw [menuClickHandler_eq t a o d dir s hopt, showDialog_menuDisplayNone]
  · intro s' e hvis hne
    rw [menuClickHandler_eq t a o d dir s' hopt]
    refine ⟨?_, ?_⟩
    · rw [showDialog_dialog_ne t a d e dir s' hne]
      exact hvis
    · rw [showDialog_dialog_self]

/-- Witness for C2 (amended): option 3 selected from the concrete menu
state reached after start. -/
theorem menu_selection_exactly_one_dialog_witness :
    (((menuClickHandler 1 1 3 (startGame 1 1 initialState)).visibleDialogs = [.problem] ∧
        (menuClickHandler 1 1 3 (startGame 1 1 initialState)).gameMenuDisplayNone = true) ∧
      ∀ (s' : UIState) (e : DialogId), (s'.dialog e).visibleClass = true → e ≠ .problem →
        ((menuClickHandler 1 1 3 s').dialog e).visibleClass = true ∧
          ((menuClickHandler 1 1 3 s').dialog .problem).visibleClass = true) :=
  menu_selection_exactly_one_dialog 1 1 (startGame 1 1 initialState) 3 .problem .top rfl
    (fun d' => by cases d' <;> rfl)

/-- C4: closing an open dialog by any of the three mechanisms — the close
button, a click whose target is exactly the backdrop, or the "e" key —
hides the dialog, restores the menu panel's display, and tweens the
camera target back to the menu pose; a backdrop click whose target is not
the backdrop itself does nothing. -/
theorem close_dialog_returns_to_menu (t a : ℚ) (s : UIState) (d : DialogId)
    (ev : CloseEvent)
    (hcur : s.currentDialog = some d)
    (hev : ev = .closeButton d ∨ ev = .backdropClick d true ∨ ev = .keyE) :
    ((closeStep t a s ev).dialog d).hiddenClass = true ∧
      ((closeStep t a s ev).dialog d).visibleClass = false ∧
      (closeStep t a s ev).gameMenuDisplayNone = false ∧
      (closeStep t a s ev).targetX = t * 160 * a ∧
      (closeStep t a s ev).targetY = 0 ∧
      closeStep t a s (.backdropClick d false) = s := by
  have hstep : closeStep t a s ev = hideDialog t a d s := by
    rcases hev with rfl | rfl | rfl
    · rfl
    · rfl
    · show (match s.currentDialog with
        | some d => hideDialog t a d s
        | none => s) = _
      rw [hcur]
  rw [hstep]
  refine ⟨?_, ?_, hideDialog_menuDisplay t a d s, hideDialog_targetX t a d s,
    hideDialog_targetY t a d s, rfl⟩
  · rw [hideDialog_dialog_self]
  · rw [hideDialog_dialog_self]

/-- Witness for C4: the "e" key closing the About dialog opened from the
concrete post-start menu state. -/
theorem close_dialog_returns_to_menu_witness :
    ((closeStep 1 1 (menuClickHandler 1 1 2 (startGame 1 1 initialState)) .keyE).dialog
        .about).hiddenClass = true ∧
      ((closeStep 1 1 (menuClickHandler 1 1 2 (startGame 1 1 initialState)) .keyE).dialog
          .about).visibleClass = false ∧
      (closeStep 1 1 (menuClickHandler 1 1 2 (startGame 1 1 initialState))
          .keyE).gameMenuDisplayNone = false ∧
      (closeStep 1 1 (menuClickHandler 1 1 2 (startGame 1 1 initialState))
          .keyE).targetX = 1 * 160 * 1 ∧
      (closeStep 1 1 (menuClickHandler 1 1 2 (startGame 1 1 initialState))
          .keyE).targetY = 0 ∧
      closeStep 1 1 (menuClickHandler 1 1 2 (startGame 1 1 initialState))
          (.backdropClick .about false) =
        menuClickHandler 1 1 2 (startGame 1 1 initialState) :=
  close_dialog_returns_to_menu 1 1 (menuClickHandler 1 1 2 (startGame 1 1 initialState))
    .about .keyE rfl (Or.inr (Or.inr rfl))

/-- C5: after triggering start and selecting menu option 3 (the "top"
direction), at tween completion the camera target is
`(tan(fov/2) * 160 * aspect * 0.6, tan(fov/2) * 160 * 0.8)` — here `t`
stands for `Math.tan(fov/2)` and `a` for the aspect ratio — the
`problemDialog` panel is visible, and the `gameMenu` panel is hidden. -/
theorem start_then_option3_scenario (t a : ℚ) :
    (menuClickHandler t a 3 (runStart t a initialState [.enterKey])).targetX =
        t * 160 * a * (6/10) ∧
      (menuClickHandler t a 3 (runStart t a initialState [.enterKey])).targetY =
        t * 160 * (8/10) ∧
      ((menuClickHandler t a 3 (runStart t a initialState [.enterKey])).dialog
          .problem).visibleClass = true ∧
      ((menuClickHandler t a 3 (runStart t a initialState [.enterKey])).dialog
          .problem).hiddenClass = false ∧
      (menuClickHandler t a 3 (runStart t a initialState [.enterKey])).gameMenuDisplayNone =
        true :=
  ⟨rfl, rfl, rfl, rfl, rfl⟩

/-! ## Claim theorems: DOM guards, resize, text spawner -/

/-- C6 counterexample: not every DOM lookup is guarded: `createRenderer`
dereferences `document.getElementById('canvas-container')` with no
presence check, so with that element absent (all others present) the
operation throws instead of silently skipping. -/
theorem createRenderer_lookup_unguarded :
    createRendererRun ⟨true, true, false, true, true, true, true, true⟩ =
        .error "TypeError: cannot read appendChild of null" ∧
      domOk (createRendererRun ⟨true, true, false, true, true, true, true, true⟩) = false :=
  ⟨rfl, rfl⟩

/-- C6 (amended): every modelled DOM lookup except the `canvas-container`
lookup in `createRenderer` is guarded by a presence check, and absence
silently skips the effect without error; `createRenderer` completes
exactly when `canvas-container` is present. -/
theorem dom_lookups_guarded_except_canvas (dom : Dom) :
    domOk (onProgressRun dom) = true ∧
      domOk (onLoadRun dom) = true ∧
      domOk (showGameMenuRun dom) = true ∧
      domOk (startGameRun dom) = true ∧
      domOk (startRandomTextSpawningRun dom) = true ∧
      (dom.loadingProgress = false → onProgressRun dom = .ok []) ∧
      (dom.loading = false → onLoadRun dom = .ok []) ∧
      (dom.gameMenu = false → showGameMenuRun dom = .ok []) ∧
      (dom.randomTextContainer = false → startRandomTextSpawningRun dom = .ok []) ∧
      (domOk (createRendererRun dom) = true ↔ dom.canvasContainer = true) := by
  refine ⟨?_, ?_, ?_, rfl, ?_, ?_, ?_, ?_, ?_, ?_⟩
  · cases h : dom.loadingProgress <;> simp [onProgressRun, domOk, h]
  · cases h : dom.loading <;> simp [onLoadRun, domOk, h]
  · cases h : dom.gameMenu <;> simp [showGameMenuRun, domOk, h]
  · cases h : dom.randomTextContainer <;> simp [startRandomTextSpawningRun, domOk, h]
  · intro h; simp [onProgressRun, h]
  · intro h; simp [onLoadRun, h]
  · intro h; simp [showGameMenuRun, h]
  · intro h; simp [startRandomTextSpawningRun, h]
  · cases h : dom.canvasContainer <;> simp [createRendererRun, domOk, h]

/-- Witness for C6 (amended): a DOM with every modelled element absent. -/
theorem dom_lookups_guarded_except_canvas_witness :
    domOk (onProgressRun ⟨false, false, false, false, false, false, false, false⟩) = true ∧
      domOk (onLoadRun ⟨false, false, false, false, false, false, false, false⟩) = true ∧
      domOk (showGameMenuRun ⟨false, false, false, false, false, false, false, false⟩) = true ∧
      domOk (startGameRun ⟨false, false, false, false, false, false, false, false⟩) = true ∧
      domOk (startRandomTextSpawningRun
          ⟨false, false, false, false, false, false, false, false⟩) = true ∧
      ((⟨false, false, false, false, false, false, false, false⟩ : Dom).loadingProgress = false →
        onProgressRun ⟨false, false, false, false, false, false, false, false⟩ = .ok []) ∧
      ((⟨false, false, false, false, false, false, false, false⟩ : Dom).loading = false →
        onLoadRun ⟨false, false, false, false, false, false, false, false⟩ = .ok []) ∧
      ((⟨false, false, false, false, false, false, false, false⟩ : Dom).gameMenu = false →
        showGameMenuRun ⟨false, false, false, false, false, false, false, false⟩ = .ok []) ∧
      ((⟨false, false, false, false, false, false, false, false⟩ : Dom).randomTextContainer =
          false →
        startRandomTextSpawningRun ⟨false, false, false, false, false, false, false, false⟩ =
          .ok []) ∧
      (domOk (createRendererRun ⟨false, false, false, false, false, false, false, false⟩) =
          true ↔
        (⟨false, false, false, false, false, false, false, false⟩ : Dom).canvasContainer =
          true) :=
  dom_lookups_guarded_except_canvas ⟨false, false, false, false, false, false, false, false⟩

/-- C7: after the resize handler runs with viewport dimensions `w × h`,
the camera's aspect ratio is exactly `w / h`, its projection parameters
have been recomputed once more, and the renderer's output size is exactly
`w × h`. -/
theorem resize_matches_viewport (w h : ℚ) (cam : Camera) (ren : Renderer) :
    (onWindowResize w h cam ren).1.aspect = w / h ∧
      (onWindowResize w h cam ren).1.projectionUpdates = cam.projectionUpdates + 1 ∧
      (onWindowResize w h cam ren).2.width = w ∧
      (onWindowResize w h cam ren).2.height = h :=
  ⟨rfl, rfl, rfl, rfl⟩

lemma floor_mul_natCast_bounds (r : ℚ) (n : ℕ) (hn : 0 < n) (h0 : 0 ≤ r) (h1 : r < 1) :
    0 ≤ ⌊r * (n : ℚ)⌋ ∧ (⌊r * (n : ℚ)⌋).toNat < n := by
  have hnQ : (0 : ℚ) < (n : ℚ) := by exact_mod_cast hn
  have hnn : (0 : ℤ) ≤ ⌊r * (n : ℚ)⌋ := Int.floor_nonneg.mpr (mul_nonneg h0 hnQ.le)
  have hlt : ⌊r * (n : ℚ)⌋ < (n : ℤ) := by
    apply Int.floor_lt.mpr
    push_cast
    exact mul_lt_of_lt_one_left hnQ h1
  exact ⟨hnn, by omega⟩

/-- C8: the text-spawn timer interval (800 ms) is shorter than the audio
polling interval (25000 ms); a tick spawns a label exactly when the
spawn draw exceeds the 0.4 threshold; every spawned label carries a word
from the fixed `techWords` vocabulary, the fade flag exactly when the
secondary draw exceeds 0.7, a position inside the box
`[0,300) × [200,700)`, and the fixed 4000 ms lifetime. -/
theorem text_spawn_spec (rSpawn rFade rWord rLeft rTop : ℚ)
    (hw0 : 0 ≤ rWord) (hw1 : rWord < 1) (hl0 : 0 ≤ rLeft) (hl1 : rLeft < 1)
    (ht0 : 0 ≤ rTop) (ht1 : rTop < 1) :
    textSpawnIntervalMs < voiceCheckIntervalMs ∧
      ((spawnTextTick rSpawn rFade rWord rLeft rTop).isSome ↔ textSpawnThreshold < rSpawn) ∧
      ∀ lbl, spawnTextTick rSpawn rFade rWord rLeft rTop = some lbl →
        lbl.word ∈ techWords ∧
          lbl.fade = decide (textFadeThreshold < rFade) ∧
          0 ≤ lbl.left ∧ lbl.left < 300 ∧
          200 ≤ lbl.top ∧ lbl.top < 700 ∧
          lbl.lifetimeMs = textLifetimeMs := by
  refine ⟨by decide, ?_, ?_⟩
  · unfold spawnTextTick
    by_cases hc : rSpawn > textSpawnThreshold
    · rw [if_pos hc]; simpa using hc
    · rw [if_neg hc]; simpa using hc
  · intro lbl hlbl
    unfold spawnTextTick at hlbl
    by_cases hc : rSpawn > textSpawnThreshold
    · rw [if_pos hc] at hlbl
      obtain ⟨hnn, hlt⟩ :=
        floor_mul_natCast_bounds rWord techWords.length (by decide) hw0 hw1
      injection hlbl with hlbl
      subst hlbl
      dsimp only
      refine ⟨?_, rfl, mul_nonneg hl0 (by norm_num), ?_, ?_, ?_, rfl⟩
      · rw [List.getD_eq_getElem techWords "" hlt]
        exact List.getElem_mem hlt
      · exact mul_lt_of_lt_one_left (by norm_num) hl1
      · nlinarith
      · nlinarith
    · rw [if_neg hc] at hlbl
      exact absurd hlbl (by simp)

/-- Witness for C8 at concrete draws. -/
theorem text_spawn_spec_witness :
    textSpawnIntervalMs < voiceCheckIntervalMs ∧
      ((spawnTextTick (1/2) 0 0 0 0).isSome ↔ textSpawnThreshold < 1/2) ∧
      ∀ lbl, spawnTextTick (1/2) 0 0 0 0 = some lbl →
        lbl.word ∈ techWords ∧
          lbl.fade = decide (textFadeThreshold < 0) ∧
          0 ≤ lbl.left ∧ lbl.left < 300 ∧
          200 ≤ lbl.top ∧ lbl.top < 700 ∧
          lbl.lifetimeMs = textLifetimeMs :=
  text_spawn_spec (1/2) 0 0 0 0 le_rfl (by norm_num) le_rfl (by norm_num) le_rfl
    (by norm_num)

end Astreon
